import Mathlib

/-!
Verification of the twilio-tools CLI (src/src/index.ts) against its
specification.  The interactive workflows are embedded shallowly: prompt
answers become function arguments, the remote Twilio API becomes an
oracle function passed in as a parameter, and the purchase loop of
`bulkPurchaseNumbers` becomes a structurally recursive function over the
list of selected indices.
-/

set_option autoImplicit false

namespace TwilioTools

/-- One row returned by the remote availability search
(`client.availablePhoneNumbers(...).local.list(...)`), as consumed by the
workflows: phone number, optional region / locality labels and the three
capability flags. -/
structure CandidateNumber where
  phoneNumber : String
  region : Option String
  locality : Option String
  voice : Bool
  sms : Bool
  mms : Bool
  deriving Repr, DecidableEq

/-- Placeholder candidate used to totalise list indexing
(`availableNumbers[index]`); the workflows only index with values produced
by the checkbox prompt, which are always in range. -/
def dummyCandidate : CandidateNumber :=
  { phoneNumber := "", region := none, locality := none,
    voice := false, sms := false, mms := false }

/-- Provider response to `client.incomingPhoneNumbers.create`.  The code
reads `purchasedNumber.phoneNumber` directly but guards
`purchasedNumber.sid` and `purchasedNumber.friendlyName` with `|| ''`,
so the latter two are modelled as possibly absent. -/
structure PurchasedNumber where
  phoneNumber : String
  sid : Option String
  friendlyName : Option String
  deriving Repr, DecidableEq

/-- A thrown provider error; `error.message` may be absent
(the code falls back to the string "Unknown error"). -/
structure ApiError where
  message : Option String
  deriving Repr, DecidableEq

/-- The `PurchaseResult` tagged union of src/src/index.ts
(`PurchaseSuccess | PurchaseFailure`). -/
inductive PurchaseResult where
  | success (phoneNumber sid friendlyName : String)
  | failure (phoneNumber error : String)
  deriving Repr, DecidableEq

/-- Discriminant of the `PurchaseResult` union (`r.success` in the code). -/
def PurchaseResult.isSuccess : PurchaseResult → Bool
  | .success _ _ _ => true
  | .failure _ _ => false

/-- Complement discriminant, used by the failed-purchases summary filter. -/
def PurchaseResult.isFailure : PurchaseResult → Bool
  | .success _ _ _ => false
  | .failure _ _ => true

/-- Payload of one `client.incomingPhoneNumbers.create` call: the
requested phone number and the friendly name sent with it. -/
structure PurchaseRequest where
  phoneNumber : String
  friendlyName : String
  deriving Repr, DecidableEq

/-- The per-item friendly name of the bulk loop:
`` `${friendlyNamePrefix} ${i + 1}` `` where `i` is the 0-based loop
counter. -/
def mkFriendlyName (pfx : String) (i : Nat) : String :=
  pfx ++ " " ++ toString (i + 1)

/-- One iteration of the bulk purchase loop (src/src/index.ts lines
437-466): resolve the selected index into `availableNumbers`, build the
friendly name from the 0-based counter `i`, issue one purchase call, and
turn its outcome into a `PurchaseResult`.  Returns the issued request
together with the recorded outcome. -/
def purchaseItem (purchase : PurchaseRequest → Except ApiError PurchasedNumber)
    (availableNumbers : List CandidateNumber) (pfx : String) (i idx : Nat) :
    PurchaseRequest × PurchaseResult :=
  let number := availableNumbers.getD idx dummyCandidate
  let req : PurchaseRequest :=
    { phoneNumber := number.phoneNumber, friendlyName := mkFriendlyName pfx i }
  match purchase req with
  | Except.ok purchasedNumber =>
      (req, PurchaseResult.success purchasedNumber.phoneNumber
        (purchasedNumber.sid.getD "") (purchasedNumber.friendlyName.getD ""))
  | Except.error err =>
      (req, PurchaseResult.failure number.phoneNumber
        (err.message.getD "Unknown error"))

/-- The sequential bulk purchase loop
(`for (let i = 0; i < selectedNumbers.length; i++) ...`), carrying the
0-based counter `i` explicitly. -/
def bulkPurchaseLoop (purchase : PurchaseRequest → Except ApiError PurchasedNumber)
    (availableNumbers : List CandidateNumber) (pfx : String) :
    Nat → List Nat → List (PurchaseRequest × PurchaseResult)
  | _, [] => []
  | i, idx :: rest =>
      purchaseItem purchase availableNumbers pfx i idx ::
        bulkPurchaseLoop purchase availableNumbers pfx (i + 1) rest

/-- The `results` array accumulated by the bulk loop, in push order. -/
def bulkResults (purchase : PurchaseRequest → Except ApiError PurchasedNumber)
    (availableNumbers : List CandidateNumber) (pfx : String)
    (selectedNumbers : List Nat) : List PurchaseResult :=
  (bulkPurchaseLoop purchase availableNumbers pfx 0 selectedNumbers).map Prod.snd

/-- Quantity prompt validation (`num > 0 && num <= 10`). -/
def validateQuantity (num : Nat) : Bool :=
  decide (0 < num) && decide (num ≤ 10)

/-- Search limit of the bulk workflow:
`searchParams.limit = Math.max(quantityNum * 2, 20)` (line 347). -/
def searchLimit (quantityNum : Nat) : Nat :=
  max (quantityNum * 2) 20

/-- The candidate list displayed and offered for selection:
`availableNumbers.slice(0, Math.min(availableNumbers.length, quantityNum * 2))`
(lines 367 and 389). -/
def displayedCandidates (availableNumbers : List CandidateNumber)
    (quantityNum : Nat) : List CandidateNumber :=
  availableNumbers.take (min availableNumbers.length (quantityNum * 2))

/-- One checkbox entry of the selection prompt: `value` is the index into
`availableNumbers` and `checked` the pre-selection default
(`checked: index < quantityNum`, line 392).  The display label is pure
presentation and is elided. -/
structure SelectionChoice where
  value : Nat
  checked : Bool
  deriving Repr, DecidableEq

/-- The checkbox choices built from the displayed candidates
(lines 389-393). -/
def selectionChoices (availableNumbers : List CandidateNumber)
    (quantityNum : Nat) : List SelectionChoice :=
  (displayedCandidates availableNumbers quantityNum).enum.map
    (fun p => { value := p.1, checked := decide (p.1 < quantityNum) })

/-- Result of the checkbox `validate` callback: the prompt accepts on
`pass` and re-prompts with the message on `fail`. -/
inductive ValidateOutcome where
  | pass
  | fail (msg : String)
  deriving Repr, DecidableEq

/-- The selection validation gate of the bulk workflow (lines 394-398). -/
def validateSelection (quantityNum : Nat) (selected : List Nat) :
    ValidateOutcome :=
  if selected.length = 0 then
    ValidateOutcome.fail "Please select at least one number"
  else if selected.length > quantityNum then
    ValidateOutcome.fail
      ("Please select at most " ++ toString quantityNum ++ " numbers")
  else ValidateOutcome.pass

/-- The credential environment (`process.env.TWILIO_ACCOUNT_SID`,
`process.env.TWILIO_AUTH_TOKEN`); a variable is either unset or holds a
string. -/
structure Env where
  twilioAccountSid : Option String
  twilioAuthToken : Option String
  deriving Repr, DecidableEq

/-- The authenticated API client handle, identified by the credentials it
was constructed from (`twilio(sid, token)`). -/
structure Client where
  accountSid : String
  authToken : String
  deriving Repr, DecidableEq

/-- JavaScript truthiness of an optional environment string: an unset
variable and the empty string are falsy. -/
def envTruthy : Option String → Bool
  | none => false
  | some s => !(s == "")

/-- Observable outcome of one `ensureTwilioClient()` call: the returned
handle, the new value of the module-level `twilioClient` variable, and
whether this call constructed a client / prompted the user. -/
structure EnsureOutcome where
  client : Client
  state : Option Client
  constructed : Bool
  promptedUser : Bool
  deriving Repr, DecidableEq

/-- `ensureTwilioClient` (src/src/index.ts lines 25-52): return the cached
handle if present; otherwise construct from the environment when both
variables are truthy, else prompt for both credentials and construct from
the answers. -/
def ensureTwilioClient (env : Env) (promptSid promptToken : String)
    (twilioClient : Option Client) : EnsureOutcome :=
  match twilioClient with
  | some c => { client := c, state := some c, constructed := false, promptedUser := false }
  | none =>
      if envTruthy env.twilioAccountSid && envTruthy env.twilioAuthToken then
        let c : Client :=
          { accountSid := env.twilioAccountSid.getD "",
            authToken := env.twilioAuthToken.getD "" }
        { client := c, state := some c, constructed := true, promptedUser := false }
      else
        let c : Client := { accountSid := promptSid, authToken := promptToken }
        { client := c, state := some c, constructed := true, promptedUser := true }

/-- A process run as a sequence of `ensureTwilioClient` calls (one per
workflow invocation), threading the module-level `twilioClient` variable
through. -/
def runEnsureCalls : Option Client → List (Env × String × String) → List EnsureOutcome
  | _, [] => []
  | s, (env, sid, tok) :: rest =>
      let r := ensureTwilioClient env sid tok s
      r :: runEnsureCalls r.state rest

/-- The purchase requests issued by one run of the single-purchase
workflow `purchaseNumber` (lines 90-253): none when the search is empty,
when the user picks the Cancel entry (`selectedIndex === -1`) or declines
the confirmation; otherwise exactly one create call. -/
def purchaseNumberRequests (availableNumbers : List CandidateNumber)
    (selectedIndex : Int) (friendlyName : String) (confirmPurchase : Bool) :
    List PurchaseRequest :=
  if availableNumbers.length = 0 then []
  else if selectedIndex = -1 then []
  else if !confirmPurchase then []
  else
    [{ phoneNumber :=
        (availableNumbers.getD selectedIndex.toNat dummyCandidate).phoneNumber,
       friendlyName := friendlyName }]

/-- The purchase requests issued by one run of the bulk workflow
`bulkPurchaseNumbers` after the prompts (lines 353, 402, 428-466): none
when the search is empty, the selection is empty or the confirmation is
declined; otherwise the requests of the loop in order. -/
def bulkPurchaseRequests (purchase : PurchaseRequest → Except ApiError PurchasedNumber)
    (availableNumbers : List CandidateNumber) (selectedNumbers : List Nat)
    (pfx : String) (confirmPurchase : Bool) : List PurchaseRequest :=
  if availableNumbers.length = 0 then []
  else if selectedNumbers.length = 0 then []
  else if !confirmPurchase then []
  else (bulkPurchaseLoop purchase availableNumbers pfx 0 selectedNumbers).map Prod.fst

/-- The provider's owned-number set after a sequence of purchase
requests: each create call adds the requested number. -/
def ownedAfter (ownedNumbers : List String) (requests : List PurchaseRequest) :
    List String :=
  ownedNumbers ++ requests.map (fun r => r.phoneNumber)

/-- Concrete search result used to evaluate the theorems below on closed
inputs. -/
def sampleCandidates : List CandidateNumber :=
  [{ phoneNumber := "+15550001", region := some "CA", locality := none,
     voice := true, sms := true, mms := false },
   { phoneNumber := "+15550002", region := none, locality := some "Austin",
     voice := true, sms := false, mms := false },
   { phoneNumber := "+15550003", region := none, locality := none,
     voice := false, sms := true, mms := true }]

/-- Oracle for which every purchase attempt is rejected with a message. -/
def failTaken : PurchaseRequest → Except ApiError PurchasedNumber :=
  fun _ => Except.error { message := some "number taken" }

/-- Oracle for which every purchase attempt throws a message-less error. -/
def failNoMessage : PurchaseRequest → Except ApiError PurchasedNumber :=
  fun _ => Except.error { message := none }

/-- Oracle for which every purchase succeeds, echoing the request. -/
def okEcho : PurchaseRequest → Except ApiError PurchasedNumber :=
  fun r => Except.ok
    { phoneNumber := r.phoneNumber, sid := some "PN123",
      friendlyName := some r.friendlyName }

/-- Oracle for which every purchase succeeds but the provider omits the
sid and the friendly name. -/
def okOmits : PurchaseRequest → Except ApiError PurchasedNumber :=
  fun r => Except.ok { phoneNumber := r.phoneNumber, sid := none, friendlyName := none }

theorem bulkPurchaseLoop_length
    (purchase : PurchaseRequest → Except ApiError PurchasedNumber)
    (availableNumbers : List CandidateNumber) (pfx : String) :
    ∀ (sel : List Nat) (i : Nat),
      (bulkPurchaseLoop purchase availableNumbers pfx i sel).length = sel.length
  | [], _ => rfl
  | _ :: rest, i => by
      simpa [bulkPurchaseLoop] using
        bulkPurchaseLoop_length purchase availableNumbers pfx rest (i + 1)

theorem bulkPurchaseLoop_getElem
    (purchase : PurchaseRequest → Except ApiError PurchasedNumber)
    (availableNumbers : List CandidateNumber) (pfx : String) :
    ∀ (sel : List Nat) (i j : Nat), j < sel.length →
      (bulkPurchaseLoop purchase availableNumbers pfx i sel)[j]? =
        some (purchaseItem purchase availableNumbers pfx (i + j) (sel.getD j 0))
  | idx :: rest, i, 0, _ => by simp [bulkPurchaseLoop]
  | idx :: rest, i, j + 1, h => by
      have h' : j < rest.length := by
        simpa using Nat.lt_of_succ_lt_succ h
      have ih := bulkPurchaseLoop_getElem purchase availableNumbers pfx rest (i + 1) j h'
      have harith : i + 1 + j = i + (j + 1) := by omega
      simpa [bulkPurchaseLoop, List.getD_cons_succ, harith] using ih

theorem bulkResults_getElem
    (purchase : PurchaseRequest → Except ApiError PurchasedNumber)
    (availableNumbers : List CandidateNumber) (pfx : String)
    (sel : List Nat) (j : Nat) (hj : j < sel.length) :
    (bulkResults purchase availableNumbers pfx sel)[j]? =
      some (purchaseItem purchase availableNumbers pfx j (sel.getD j 0)).2 := by
  unfold bulkResults
  rw [List.getElem?_map, bulkPurchaseLoop_getElem purchase availableNumbers pfx sel 0 j hj]
  simp

theorem countP_success_add_countP_failure (l : List PurchaseResult) :
    l.countP PurchaseResult.isSuccess + l.countP PurchaseResult.isFailure = l.length := by
  induction l with
  | nil => rfl
  | cons a l ih =>
      cases a <;>
        simp [List.countP_cons, PurchaseResult.isSuccess, PurchaseResult.isFailure] <;>
        omega

/-- C1: for every non-empty selection of N candidates and every name
prefix, the bulk-purchase loop produces exactly N outcomes, one per
selected candidate in selection order, and the Success and Failure counts
add up to N. -/
theorem bulk_outcome_partition
    (purchase : PurchaseRequest → Except ApiError PurchasedNumber)
    (availableNumbers : List CandidateNumber) (pfx : String)
    (sel : List Nat) (hsel : sel ≠ []) :
    (bulkResults purchase availableNumbers pfx sel).length = sel.length ∧
    (∀ j, j < sel.length →
      (bulkResults purchase availableNumbers pfx sel)[j]? =
        some (purchaseItem purchase availableNumbers pfx j (sel.getD j 0)).2) ∧
    (bulkResults purchase availableNumbers pfx sel).countP PurchaseResult.isSuccess +
      (bulkResults purchase availableNumbers pfx sel).countP PurchaseResult.isFailure =
      sel.length := by
  have hlen : (bulkResults purchase availableNumbers pfx sel).length = sel.length := by
    unfold bulkResults
    rw [List.length_map, bulkPurchaseLoop_length]
  refine ⟨hlen, ?_, ?_⟩
  · intro j hj
    exact bulkResults_getElem purchase availableNumbers pfx sel j hj
  · rw [countP_success_add_countP_failure, hlen]

theorem bulk_outcome_partition_witness :
    (([0, 2] : List Nat) ≠ []) ∧
    ((bulkResults failNoMessage sampleCandidates "Batch" [0, 2]).length =
      ([0, 2] : List Nat).length ∧
    (∀ j, j < ([0, 2] : List Nat).length →
      (bulkResults failNoMessage sampleCandidates "Batch" [0, 2])[j]? =
        some (purchaseItem failNoMessage sampleCandidates "Batch" j
          (([0, 2] : List Nat).getD j 0)).2) ∧
    (bulkResults failNoMessage sampleCandidates "Batch" [0, 2]).countP
        PurchaseResult.isSuccess +
      (bulkResults failNoMessage sampleCandidates "Batch" [0, 2]).countP
        PurchaseResult.isFailure = ([0, 2] : List Nat).length) :=
  ⟨by decide,
   bulk_outcome_partition failNoMessage sampleCandidates "Batch" [0, 2] (by decide)⟩

theorem purchaseItem_fst
    (purchase : PurchaseRequest → Except ApiError PurchasedNumber)
    (availableNumbers : List CandidateNumber) (pfx : String) (i idx : Nat) :
    (purchaseItem purchase availableNumbers pfx i idx).1 =
      { phoneNumber := (availableNumbers.getD idx dummyCandidate).phoneNumber,
        friendlyName := mkFriendlyName pfx i } := by
  cases hp : purchase
      { phoneNumber := (availableNumbers.getD idx dummyCandidate).phoneNumber,
        friendlyName := mkFriendlyName pfx i } <;>
    simp only [purchaseItem, hp]

/-- C2: if the purchase call at position k throws, the outcome at k is a
Failure carrying the requested phone number and the thrown message (or
"Unknown error" when the error carries none); every other position is
still attempted with its own outcome, and the friendly name sent at each
position j stays "{prefix} {j+1}". -/
theorem bulk_failure_isolation
    (purchase : PurchaseRequest → Except ApiError PurchasedNumber)
    (availableNumbers : List CandidateNumber) (pfx : String)
    (sel : List Nat) (k : Nat) (e : ApiError)
    (hk : k < sel.length)
    (herr : purchase
        { phoneNumber := (availableNumbers.getD (sel.getD k 0) dummyCandidate).phoneNumber,
          friendlyName := mkFriendlyName pfx k } = Except.error e) :
    (bulkResults purchase availableNumbers pfx sel)[k]? =
      some (PurchaseResult.failure
        (availableNumbers.getD (sel.getD k 0) dummyCandidate).phoneNumber
        (e.message.getD "Unknown error")) ∧
    (bulkResults purchase availableNumbers pfx sel).length = sel.length ∧
    (∀ j, j < sel.length →
      (bulkPurchaseLoop purchase availableNumbers pfx 0 sel)[j]? =
        some (purchaseItem purchase availableNumbers pfx j (sel.getD j 0)) ∧
      (purchaseItem purchase availableNumbers pfx j (sel.getD j 0)).1.friendlyName =
        mkFriendlyName pfx j) := by
  refine ⟨?_, ?_, ?_⟩
  · rw [bulkResults_getElem purchase availableNumbers pfx sel k hk]
    simp only [purchaseItem, herr]
  · unfold bulkResults
    rw [List.length_map, bulkPurchaseLoop_length]
  · intro j hj
    constructor
    · simpa using bulkPurchaseLoop_getElem purchase availableNumbers pfx sel 0 j hj
    · rw [purchaseItem_fst]

theorem bulk_failure_isolation_witness :
    (0 < ([1] : List Nat).length) ∧
    (failTaken
        { phoneNumber := (sampleCandidates.getD (([1] : List Nat).getD 0 0)
            dummyCandidate).phoneNumber,
          friendlyName := mkFriendlyName "Batch" 0 } =
      Except.error { message := some "number taken" }) ∧
    ((bulkResults failTaken sampleCandidates "Batch" [1])[0]? =
      some (PurchaseResult.failure
        (sampleCandidates.getD (([1] : List Nat).getD 0 0) dummyCandidate).phoneNumber
        (({ message := some "number taken" } : ApiError).message.getD "Unknown error")) ∧
    (bulkResults failTaken sampleCandidates "Batch" [1]).length = ([1] : List Nat).length ∧
    (∀ j, j < ([1] : List Nat).length →
      (bulkPurchaseLoop failTaken sampleCandidates "Batch" 0 [1])[j]? =
        some (purchaseItem failTaken sampleCandidates "Batch" j
          (([1] : List Nat).getD j 0)) ∧
      (purchaseItem failTaken sampleCandidates "Batch" j
          (([1] : List Nat).getD j 0)).1.friendlyName = mkFriendlyName "Batch" j)) :=
  ⟨by decide, rfl,
   bulk_failure_isolation failTaken sampleCandidates "Batch" [1] 0
     { message := some "number taken" } (by decide) rfl⟩

/-- C3: when every purchase call succeeds, every position j of a
non-empty selection yields a Success outcome built from the provider
response to a request whose friendly name is exactly
"{prefix} {j+1}", i.e. the names run "{prefix} 1" .. "{prefix} N". -/
theorem bulk_all_success_names
    (purchase : PurchaseRequest → Except ApiError PurchasedNumber)
    (availableNumbers : List CandidateNumber) (pfx : String)
    (sel : List Nat) (hsel : sel ≠ [])
    (hok : ∀ r, ∃ p, purchase r = Except.ok p) :
    ∀ j, j < sel.length → ∃ p : PurchasedNumber,
      purchase
        { phoneNumber := (availableNumbers.getD (sel.getD j 0) dummyCandidate).phoneNumber,
          friendlyName := pfx ++ " " ++ toString (j + 1) } = Except.ok p ∧
      (bulkResults purchase availableNumbers pfx sel)[j]? =
        some (PurchaseResult.success p.phoneNumber (p.sid.getD "")
          (p.friendlyName.getD "")) := by
  intro j hj
  obtain ⟨p, hp⟩ := hok
    { phoneNumber := (availableNumbers.getD (sel.getD j 0) dummyCandidate).phoneNumber,
      friendlyName := pfx ++ " " ++ toString (j + 1) }
  refine ⟨p, hp, ?_⟩
  rw [bulkResults_getElem purchase availableNumbers pfx sel j hj]
  simp only [purchaseItem, mkFriendlyName]
  rw [hp]

theorem bulk_all_success_names_witness :
    (([0, 1] : List Nat) ≠ []) ∧
    (∀ r, ∃ p, okEcho r = Except.ok p) ∧
    (∀ j, j < ([0, 1] : List Nat).length → ∃ p : PurchasedNumber,
      okEcho
        { phoneNumber :=
            (sampleCandidates.getD (([0, 1] : List Nat).getD j 0) dummyCandidate).phoneNumber,
          friendlyName := "Batch" ++ " " ++ toString (j + 1) } = Except.ok p ∧
      (bulkResults okEcho sampleCandidates "Batch" [0, 1])[j]? =
        some (PurchaseResult.success p.phoneNumber (p.sid.getD "")
          (p.friendlyName.getD ""))) :=
  ⟨by decide, fun r => ⟨_, rfl⟩,
   bulk_all_success_names okEcho sampleCandidates "Batch" [0, 1] (by decide)
     (fun r => ⟨_, rfl⟩)⟩

/-- C4: a successful purchase call appends a Success outcome carrying the
phone number, sid and friendly name of the provider response, with the
empty string substituted for an omitted sid or friendly name. -/
theorem success_outcome_fields
    (purchase : PurchaseRequest → Except ApiError PurchasedNumber)
    (availableNumbers : List CandidateNumber) (pfx : String) (i idx : Nat)
    (p : PurchasedNumber)
    (hok : purchase
        { phoneNumber := (availableNumbers.getD idx dummyCandidate).phoneNumber,
          friendlyName := mkFriendlyName pfx i } = Except.ok p) :
    (purchaseItem purchase availableNumbers pfx i idx).2 =
      PurchaseResult.success p.phoneNumber (p.sid.getD "") (p.friendlyName.getD "") ∧
    (p.sid = none → p.sid.getD "" = "") ∧
    (p.friendlyName = none → p.friendlyName.getD "" = "") := by
  refine ⟨?_, ?_, ?_⟩
  · simp only [purchaseItem, hok]
  · intro h
    rw [h]
    rfl
  · intro h
    rw [h]
    rfl

theorem success_outcome_fields_witness :
    (okOmits
        { phoneNumber := (sampleCandidates.getD 2 dummyCandidate).phoneNumber,
          friendlyName := mkFriendlyName "Batch" 0 } =
      Except.ok { phoneNumber := "+15550003", sid := none, friendlyName := none }) ∧
    ((purchaseItem okOmits sampleCandidates "Batch" 0 2).2 =
      PurchaseResult.success
        ({ phoneNumber := "+15550003", sid := none, friendlyName := none
           : PurchasedNumber }).phoneNumber
        (({ phoneNumber := "+15550003", sid := none, friendlyName := none
           : PurchasedNumber }).sid.getD "")
        (({ phoneNumber := "+15550003", sid := none, friendlyName := none
           : PurchasedNumber }).friendlyName.getD "") ∧
    (({ phoneNumber := "+15550003", sid := none, friendlyName := none
        : PurchasedNumber }).sid = none →
      ({ phoneNumber := "+15550003", sid := none, friendlyName := none
        : PurchasedNumber }).sid.getD "" = "") ∧
    (({ phoneNumber := "+15550003", sid := none, friendlyName := none
        : PurchasedNumber }).friendlyName = none →
      ({ phoneNumber := "+15550003", sid := none, friendlyName := none
        : PurchasedNumber }).friendlyName.getD "" = "")) :=
  ⟨rfl,
   success_outcome_fields okOmits sampleCandidates "Batch" 0 2
     { phoneNumber := "+15550003", sid := none, friendlyName := none } rfl⟩

/-- C5: for every quantity accepted by the prompt validation, the limit
passed to the remote availability search is max(2*Q, 20). -/
theorem search_limit_overfetch (q : Nat) (hq : validateQuantity q = true) :
    searchLimit q = max (2 * q) 20 := by
  unfold searchLimit
  omega

theorem search_limit_overfetch_witness :
    validateQuantity 3 = true ∧ searchLimit 3 = max (2 * 3) 20 :=
  ⟨by decide, search_limit_overfetch 3 (by decide)⟩

theorem countP_enumFrom_lt {α : Type} (q : Nat) :
    ∀ (l : List α) (n : Nat),
      (List.enumFrom n l).countP (fun p => decide (p.1 < q)) =
        min q (n + l.length) - min q n
  | [], n => by simp
  | a :: l, n => by
      have ih := countP_enumFrom_lt q l (n + 1)
      simp only [List.enumFrom, List.countP_cons, ih, List.length_cons,
        decide_eq_true_eq]
      by_cases h : n < q <;> simp [h] <;> omega

/-- C6: for every quantity Q and non-empty search result, the selectable
list is the first min(available, 2*Q) results in listing order, and
exactly the first min(Q, available) entries are pre-checked. -/
theorem display_preselection
    (availableNumbers : List CandidateNumber) (q : Nat)
    (hav : availableNumbers ≠ []) :
    (displayedCandidates availableNumbers q).length =
      min availableNumbers.length (q * 2) ∧
    (∀ i, i < min availableNumbers.length (q * 2) →
      (displayedCandidates availableNumbers q)[i]? = availableNumbers[i]?) ∧
    (∀ i c, (selectionChoices availableNumbers q)[i]? = some c →
      c.value = i ∧ (c.checked = true ↔ i < min q availableNumbers.length)) ∧
    (selectionChoices availableNumbers q).countP (fun c => c.checked) =
      min q availableNumbers.length := by
  have hdlen : (displayedCandidates availableNumbers q).length =
      min availableNumbers.length (q * 2) := by
    unfold displayedCandidates
    rw [List.length_take]
    omega
  refine ⟨hdlen, ?_, ?_, ?_⟩
  · intro i hi
    unfold displayedCandidates
    rw [List.getElem?_take]
    simp [hi]
  · intro i c hc
    unfold selectionChoices at hc
    rw [List.getElem?_map, List.getElem?_enum] at hc
    cases hd : (displayedCandidates availableNumbers q)[i]? with
    | none => rw [hd] at hc; exact Option.noConfusion hc
    | some a =>
        rw [hd] at hc
        injection hc with hc
        obtain ⟨hlt, _⟩ := List.getElem?_eq_some.mp hd
        rw [hdlen] at hlt
        subst hc
        refine ⟨rfl, ?_⟩
        show decide (i < q) = true ↔ i < min q availableNumbers.length
        simp only [decide_eq_true_eq]
        omega
  · unfold selectionChoices
    rw [List.countP_map]
    have hcomp :
        ((fun c : SelectionChoice => c.checked) ∘
          (fun p : Nat × CandidateNumber =>
            ({ value := p.1, checked := decide (p.1 < q) } : SelectionChoice))) =
        fun p : Nat × CandidateNumber => decide (p.1 < q) := rfl
    rw [hcomp, List.enum_eq_enumFrom, countP_enumFrom_lt, hdlen]
    omega

theorem display_preselection_witness :
    (sampleCandidates ≠ []) ∧
    ((displayedCandidates sampleCandidates 2).length =
      min sampleCandidates.length (2 * 2) ∧
    (∀ i, i < min sampleCandidates.length (2 * 2) →
      (displayedCandidates sampleCandidates 2)[i]? = sampleCandidates[i]?) ∧
    (∀ i c, (selectionChoices sampleCandidates 2)[i]? = some c →
      c.value = i ∧ (c.checked = true ↔ i < min 2 sampleCandidates.length)) ∧
    (selectionChoices sampleCandidates 2).countP (fun c => c.checked) =
      min 2 sampleCandidates.length) :=
  ⟨by decide, display_preselection sampleCandidates 2 (by decide)⟩

/-- C7: the checkbox validation gate accepts a confirmed selection exactly
when it is non-empty and holds at most Q items, so an empty or oversized
selection is re-prompted and never reaches the purchase loop. -/
theorem selection_validation_gate (q : Nat) (selected : List Nat) :
    validateSelection q selected = ValidateOutcome.pass ↔
      (0 < selected.length ∧ selected.length ≤ q) := by
  unfold validateSelection
  split_ifs with h1 h2
  · exact ⟨fun h => h.elim, fun h => by omega⟩
  · exact ⟨fun h => h.elim, fun h => by omega⟩
  · exact ⟨fun _ => by omega, fun _ => rfl⟩

theorem ensure_state_some (env : Env) (sid tok : String) (s : Option Client) :
    (ensureTwilioClient env sid tok s).state =
      some (ensureTwilioClient env sid tok s).client := by
  cases s with
  | some c => rfl
  | none =>
      simp only [ensureTwilioClient]
      split <;> rfl

theorem runEnsureCalls_cached (c : Client) :
    ∀ calls : List (Env × String × String),
      (runEnsureCalls (some c) calls).all
        (fun r => decide (r.client = c) && !r.constructed && !r.promptedUser) = true
  | [] => rfl
  | (env, sid, tok) :: rest => by
      simp only [runEnsureCalls, ensureTwilioClient, List.all_cons,
        runEnsureCalls_cached c rest]
      simp

/-- C8: once the first ensureTwilioClient call has constructed and cached
a client, every later call of the run returns exactly that handle and
neither constructs a client nor prompts again. -/
theorem client_singleton (env0 : Env) (sid0 tok0 : String)
    (calls : List (Env × String × String)) :
    (ensureTwilioClient env0 sid0 tok0 none).state =
      some (ensureTwilioClient env0 sid0 tok0 none).client ∧
    (runEnsureCalls (ensureTwilioClient env0 sid0 tok0 none).state calls).all
      (fun r => decide (r.client = (ensureTwilioClient env0 sid0 tok0 none).client)
        && !r.constructed && !r.promptedUser) = true := by
  refine ⟨ensure_state_some env0 sid0 tok0 none, ?_⟩
  rw [ensure_state_some env0 sid0 tok0 none]
  exact runEnsureCalls_cached _ calls

/-- C9 as stated is false: an environment variable that is set to the
empty string counts as set, yet the code treats it as absent (JavaScript
truthiness) and prompts.  Concretely, with TWILIO_ACCOUNT_SID set to ""
and TWILIO_AUTH_TOKEN set to "token", the first call still prompts. -/
theorem env_credentials_counterexample :
    ¬ (∀ (env : Env) (sid tok : String),
        env.twilioAccountSid.isSome = true → env.twilioAuthToken.isSome = true →
        (ensureTwilioClient env sid tok none).promptedUser = false) := by
  intro h
  exact absurd
    (h { twilioAccountSid := some "", twilioAuthToken := some "token" }
      "SID" "TOK" rfl rfl)
    (by decide)

/-- C9 (amended): on the first acquisition the environment credentials
are used, with no prompt, exactly when both variables are set to
non-empty strings; otherwise the user is prompted for both values and the
client is built from the prompted credentials, ignoring the
environment. -/
theorem env_credentials_first_call (env : Env) (sid tok : String) :
    (ensureTwilioClient env sid tok none).promptedUser =
      !(envTruthy env.twilioAccountSid && envTruthy env.twilioAuthToken) ∧
    (ensureTwilioClient env sid tok none).client =
      (if envTruthy env.twilioAccountSid && envTruthy env.twilioAuthToken then
        { accountSid := env.twilioAccountSid.getD "",
          authToken := env.twilioAuthToken.getD "" }
      else { accountSid := sid, authToken := tok }) := by
  cases hb : envTruthy env.twilioAccountSid && envTruthy env.twilioAuthToken <;>
    simp [ensureTwilioClient, hb]

/-- C10: picking the Cancel entry or declining the confirmation in the
single-purchase workflow, and declining the confirmation in the bulk
workflow, issue no purchase request and leave the owned-number set
unchanged. -/
theorem cancel_frame
    (purchase : PurchaseRequest → Except ApiError PurchasedNumber)
    (availableNumbers : List CandidateNumber) (selectedIndex : Int)
    (friendlyName : String) (confirmSingle : Bool)
    (selectedNumbers : List Nat) (pfx : String) (ownedNumbers : List String)
    (hcancel : selectedIndex = -1 ∨ confirmSingle = false) :
    purchaseNumberRequests availableNumbers selectedIndex friendlyName
      confirmSingle = [] ∧
    ownedAfter ownedNumbers
      (purchaseNumberRequests availableNumbers selectedIndex friendlyName
        confirmSingle) = ownedNumbers ∧
    bulkPurchaseRequests purchase availableNumbers selectedNumbers pfx false = [] ∧
    ownedAfter ownedNumbers
      (bulkPurchaseRequests purchase availableNumbers selectedNumbers pfx false) =
      ownedNumbers := by
  have hsingle : purchaseNumberRequests availableNumbers selectedIndex
      friendlyName confirmSingle = [] := by
    unfold purchaseNumberRequests
    rcases hcancel with h | h <;> subst h <;> split_ifs <;> simp_all
  have hbulk : bulkPurchaseRequests purchase availableNumbers selectedNumbers
      pfx false = [] := by
    unfold bulkPurchaseRequests
    split_ifs <;> simp_all
  refine ⟨hsingle, ?_, hbulk, ?_⟩ <;> simp [ownedAfter, hsingle, hbulk]

theorem cancel_frame_witness :
    ((-1 : Int) = -1 ∨ (true : Bool) = false) ∧
    (purchaseNumberRequests sampleCandidates (-1) "Main line" true = [] ∧
    ownedAfter ["+15551111"]
      (purchaseNumberRequests sampleCandidates (-1) "Main line" true) =
      ["+15551111"] ∧
    bulkPurchaseRequests failTaken sampleCandidates [0] "Batch" false = [] ∧
    ownedAfter ["+15551111"]
      (bulkPurchaseRequests failTaken sampleCandidates [0] "Batch" false) =
      ["+15551111"]) :=
  ⟨Or.inl rfl,
   cancel_frame failTaken sampleCandidates (-1) "Main line" true [0] "Batch"
     ["+15551111"] (Or.inl rfl)⟩

end TwilioTools
